import Mathlib

/-!
Shallow embedding of `src/json2csv.py`, a Python 2 script that converts
line-delimited JSON tweet records into a CSV file, together with theorems
settling the frozen claims about its specification.

The embedding models:
* JSON values as decoded by `json.loads` on one input line;
* the per-field lookup loop (lines 129-150), including Python subscripting
  semantics (`KeyError` / `TypeError` / `IndexError`) and the
  `except TypeError: value = value[int(key)]` fallback;
* the cell formatter `fix` (lines 22-31);
* `email.utils.parsedate_tz` (the Python 2.7 algorithm) and the
  `dt.datetime(*[time_tpl[i] for i in range(7)])` construction (lines 156-162);
* the header-writing block (lines 112-118) and the per-record row loop.
-/

namespace Json2Csv

/-- JSON values as produced by `json.loads` on one input line.  Strings are
Python unicode strings; numbers are modelled as integers (every field the
script extracts in the claims is integral, and no claim involves fractional
values). -/
inductive Json where
  | null
  | bool (b : Bool)
  | num (n : Int)
  | str (s : String)
  | arr (elems : List Json)
  | obj (entries : List (String × Json))

/-- Python exceptions that the per-record code of the script can raise. -/
inductive PyErr where
  | keyError (key : String)
  | typeError (msg : String)
  | valueError (msg : String)
  | indexError (msg : String)
  | attributeError (msg : String)
deriving DecidableEq

/-- Key lookup in a decoded JSON object (Python `dict` lookup; JSON records
have distinct keys, so first-match association lookup models it). -/
def lookupKey : List (String × Json) → String → Option Json
  | [], _ => none
  | (k, v) :: rest, key => if k = key then some v else lookupKey rest key

/-- Digit run to a natural number; `none` if a non-digit occurs. -/
def digitsValAux : List Char → Nat → Option Nat
  | [], acc => some acc
  | c :: rest, acc =>
      if c.isDigit then digitsValAux rest (acc * 10 + (c.toNat - 48)) else none

/-- Value of a nonempty all-digit run, else `none`. -/
def allDigits : List Char → Option Nat
  | [] => none
  | c :: rest => digitsValAux (c :: rest) 0

/-- Strip leading and trailing whitespace (Python `int` ignores it). -/
def trimWS (cs : List Char) : List Char :=
  ((cs.dropWhile Char.isWhitespace).reverse.dropWhile Char.isWhitespace).reverse

/-- Python `int(s)` for base 10: optional surrounding whitespace, optional
sign, then a nonempty digit run; `none` models the `ValueError`. -/
def pyIntChars (cs : List Char) : Option Int :=
  match trimWS cs with
  | '+' :: ds => (allDigits ds).map Int.ofNat
  | '-' :: ds => (allDigits ds).map (fun n => -(n : Int))
  | ds => (allDigits ds).map Int.ofNat

/-- Python `int(s)` on a string. -/
def pyInt (s : String) : Option Int := pyIntChars s.data

/-- Python `str(n)` for an integer. -/
def intToStr (n : Int) : String := toString n

/-- The apostrophe character used by Python `repr` of strings. -/
def squote : Char := Char.ofNat 39

/-- Lowercase hexadecimal rendering of `n`, zero-padded to `width` digits
(as in Python escape sequences). -/
def hexPad (n width : Nat) : List Char :=
  let ds := Nat.toDigits 16 n
  List.replicate (width - ds.length) '0' ++ ds

/-- Escape of one character inside a Python 2 `unicode` repr. -/
def reprEscapeChar (c : Char) : List Char :=
  if c = '\\' then ['\\', '\\']
  else if c = squote then ['\\', squote]
  else if c = '\n' then ['\\', 'n']
  else if c = '\r' then ['\\', 'r']
  else if c = '\t' then ['\\', 't']
  else if c.toNat < 32 ∨ c.toNat = 127 then '\\' :: 'x' :: hexPad c.toNat 2
  else if c.toNat < 127 then [c]
  else if c.toNat < 256 then '\\' :: 'x' :: hexPad c.toNat 2
  else if c.toNat < 65536 then '\\' :: 'u' :: hexPad c.toNat 4
  else '\\' :: 'U' :: hexPad c.toNat 8

/-- Python 2 `repr` of a `unicode` string: `u` prefix, single quotes,
escaped contents. -/
def strReprU (s : String) : String :=
  String.mk ('u' :: squote :: (s.data.foldr (fun c acc => reprEscapeChar c ++ acc) [squote]))

mutual

/-- Python `repr` of a decoded JSON value (which is what `str` shows for the
elements of lists and dicts). -/
def pyRepr : Json → String
  | .null => "None"
  | .bool true => "True"
  | .bool false => "False"
  | .num n => intToStr n
  | .str s => strReprU s
  | .arr xs => "[" ++ pyReprElems xs ++ "]"
  | .obj es => "\x7b" ++ pyReprEntries es ++ "\x7d"

/-- Comma-separated reprs of list elements. -/
def pyReprElems : List Json → String
  | [] => ""
  | [x] => pyRepr x
  | x :: y :: rest => pyRepr x ++ ", " ++ pyReprElems (y :: rest)

/-- Comma-separated `key: value` reprs of dict entries. -/
def pyReprEntries : List (String × Json) → String
  | [] => ""
  | [(k, v)] => strReprU k ++ ": " ++ pyRepr v
  | (k, v) :: e :: rest => strReprU k ++ ": " ++ pyRepr v ++ ", " ++ pyReprEntries (e :: rest)

end

/-- Python `str(value)` on a decoded JSON value: strings render as their own
text, every other value as its repr (for `None`, booleans, integers, lists
and dicts, `str` and `repr` agree). -/
def pyStr : Json → String
  | .str s => s
  | v => pyRepr v

/-- `text.replace("\n", " ")` from line 29: each newline character becomes a
single space (a one-character-for-one-character replacement, hence a map). -/
def replaceNewline (s : String) : String :=
  String.mk (s.data.map (fun c => if c = '\n' then ' ' else c))

/-- `fix` (lines 22-31): for a string, encode as UTF-8 with
`errors="xmlcharrefreplace"` (UTF-8 encodes every code point, so the error
handler never fires and the step is the identity at character level),
replace newlines by spaces, and wrap in double quotes.  A value without an
`encode` method (`None`, booleans, numbers, lists, dicts) raises
`AttributeError` and is returned as `str(value)` unchanged. -/
def fix (v : Json) : String :=
  match v with
  | .str s => "\"" ++ replaceNewline s ++ "\""
  | v => pyStr v

/-- `value[key]` with a string subscript: dict lookup succeeds or raises
`KeyError`; lists and strings raise `TypeError` (indices must be integers);
scalars are not subscriptable (`TypeError`). -/
def getItemStr (v : Json) (key : String) : Except PyErr Json :=
  match v with
  | .obj entries =>
      match lookupKey entries key with
      | some x => .ok x
      | none => .error (.keyError key)
  | .arr _ => .error (.typeError "list indices must be integers")
  | .str _ => .error (.typeError "string indices must be integers")
  | .num _ => .error (.typeError "int object is not subscriptable")
  | .bool _ => .error (.typeError "bool object is not subscriptable")
  | .null => .error (.typeError "NoneType object is not subscriptable")

/-- `value[n]` with an integer subscript: Python list/string indexing with
negative indices counting from the end, `IndexError` out of range; an
integer subscript on a dict whose keys are strings raises `KeyError`;
scalars raise `TypeError`. -/
def getItemInt (v : Json) (n : Int) : Except PyErr Json :=
  match v with
  | .arr xs =>
      let len : Int := xs.length
      let i := if n < 0 then n + len else n
      if 0 ≤ i ∧ i < len then
        .ok (xs.getD i.toNat Json.null)
      else
        .error (.indexError "list index out of range")
  | .str s =>
      let len : Int := s.data.length
      let i := if n < 0 then n + len else n
      if 0 ≤ i ∧ i < len then
        .ok (.str (String.mk [s.data.getD i.toNat ' ']))
      else
        .error (.indexError "string index out of range")
  | .obj _ => .error (.keyError (intToStr n))
  | .num _ => .error (.typeError "int object is not subscriptable")
  | .bool _ => .error (.typeError "bool object is not subscriptable")
  | .null => .error (.typeError "NoneType object is not subscriptable")

/-- Lines 139-144: `value[key]`, and on `TypeError` retry as
`value[int(key)]`.  A failing `int(key)` raises `ValueError` (carrying the
offending text); any exception from the retry propagates.  Exceptions other
than `TypeError` from the first subscript propagate directly. -/
def getItemWithFallback (v : Json) (key : String) : Except PyErr Json :=
  match getItemStr v key with
  | .ok x => .ok x
  | .error (.typeError _) =>
      match pyInt key with
      | some n => getItemInt v n
      | none => .error (.valueError key)
  | .error e => .error e

/-- Outcome of the per-field loop: either the `nodata` flag was set (the
walked value was `None` with path segments remaining) or the loop finished
with a final value. -/
inductive FieldResult where
  | nodata
  | value (v : Json)

/-- Lines 129-144: the per-field lookup loop.  Walk the comma-split keys;
when the current value is `None` with keys remaining, the `nodata` flag is
set and every remaining iteration `continue`s (the value stays `None`), so
the loop ends in `nodata`.  Otherwise subscript with the `TypeError`
fallback; an exception aborts (it is uncaught in the script). -/
def resolve (v : Json) (keys : List String) : Except PyErr FieldResult :=
  match keys with
  | [] => .ok (.value v)
  | key :: rest =>
      match v with
      | .null => .ok .nodata
      | v =>
          match getItemWithFallback v key with
          | .ok next => resolve next rest
          | .error e => .error e

/-- `field.split(",")`: split at every comma, keeping empty pieces. -/
def splitCommaChars : List Char → List (List Char)
  | [] => [[]]
  | c :: rest =>
      if c = ',' then [] :: splitCommaChars rest
      else
        match splitCommaChars rest with
        | t :: ts => (c :: t) :: ts
        | [] => [[c]]

/-- `field.split(",")` on a string. -/
def splitComma (s : String) : List String :=
  (splitCommaChars s.data).map String.mk

/-- Lines 147-150: the cell text written for one field.  `nodata` writes
`" , "`, i.e. the cell `" "` followed by the `", "` separator; otherwise
`fix(value)` followed by the separator. -/
def formatCell : FieldResult → String
  | .nodata => " "
  | .value v => fix v

/-- One field of one record: resolve the comma-split path, then format. -/
def writeField (tweet : Json) (field : String) : Except PyErr String :=
  match resolve tweet (splitComma field) with
  | .ok r => .ok (formatCell r)
  | .error e => .error e

/-- Lines 124-150: the cells written for all fields of one record, in
order; the first uncaught exception aborts. -/
def writeCells (tweet : Json) : List String → Except PyErr (List String)
  | [] => .ok []
  | f :: rest =>
      match writeField tweet f with
      | .ok c =>
          match writeCells tweet rest with
          | .ok cs => .ok (c :: cs)
          | .error e => .error e
      | .error e => .error e

/-- The default field list (lines 37-46). -/
def fields : List String :=
  ["id", "user,id", "user,screen_name", "geo,coordinates,0", "geo,coordinates,1",
   "place,full_name", "created_at", "text"]

/-- Python `str.split()` with no argument: split on whitespace runs,
discarding empty pieces (auxiliary accumulator form). -/
def splitWSAux : List Char → List Char → List (List Char)
  | [], acc => if acc.isEmpty then [] else [acc.reverse]
  | c :: rest, acc =>
      if c.isWhitespace then
        if acc.isEmpty then splitWSAux rest [] else acc.reverse :: splitWSAux rest []
      else splitWSAux rest (c :: acc)

/-- Python `s.split()` on a string. -/
def pySplitWS (s : String) : List String := (splitWSAux s.data []).map String.mk

/-- Python `s.lower()`. -/
def lowerStr (s : String) : String := String.mk (s.data.map Char.toLower)

/-- Python `s.upper()`. -/
def upperStr (s : String) : String := String.mk (s.data.map Char.toUpper)

/-- Python `s.endswith(",")`. -/
def endsWithComma (s : String) : Bool := s.data.getLast? == some ','

/-- The suffix after the last comma (Python `s[s.rfind(",")+1:]`), or `none`
when the string has no comma (`rfind` returned -1). -/
def afterLastComma : List Char → Option (List Char)
  | [] => none
  | c :: rest =>
      match afterLastComma rest with
      | some t => some t
      | none => if c = ',' then some rest else none

/-- First index of `c` (Python `s.find(c)`, with `none` for -1). -/
def idxOfChar (c : Char) : List Char → Option Nat
  | [] => none
  | d :: rest => if d = c then some 0 else (idxOfChar c rest).map (· + 1)

/-- Single-character split keeping empty pieces (Python `s.split(sep)`). -/
def splitOnChar (sep : Char) : List Char → List (List Char)
  | [] => [[]]
  | c :: rest =>
      if c = sep then [] :: splitOnChar sep rest
      else
        match splitOnChar sep rest with
        | t :: ts => (c :: t) :: ts
        | [] => [[c]]

/-- `_daynames` of `email._parseaddr`. -/
def dayNames : List String := ["mon", "tue", "wed", "thu", "fri", "sat", "sun"]

/-- `_monthnames` of `email._parseaddr` (abbreviations first, then full
names; `index + 1 > 12` is mapped back by subtracting 12). -/
def monthNames : List String :=
  ["jan", "feb", "mar", "apr", "may", "jun", "jul", "aug", "sep", "oct", "nov", "dec",
   "january", "february", "march", "april", "may", "june", "july", "august",
   "september", "october", "november", "december"]

/-- `_timezones` of `email._parseaddr`: named zones to `±hhmm` offsets. -/
def timezoneTable : List (String × Int) :=
  [("UT", 0), ("UTC", 0), ("GMT", 0), ("Z", 0),
   ("AST", -400), ("ADT", -300), ("EST", -500), ("EDT", -400),
   ("CST", -600), ("CDT", -500), ("MST", -700), ("MDT", -600),
   ("PST", -800), ("PDT", -700)]

/-- Association lookup in the timezone table (Python dict membership). -/
def lookupTz : List (String × Int) → String → Option Int
  | [], _ => none
  | (k, v) :: rest, key => if k = key then some v else lookupTz rest key

/-- First index of `x` (Python `list.index`), `none` when missing. -/
def idxIn (x : String) : List String → Option Nat
  | [] => none
  | y :: rest => if y = x then some 0 else (idxIn x rest).map (· + 1)

/-- The ten components returned by `email.utils.parsedate_tz`: the six
calendar fields, the constant filler `(0, 1, -1)` for
weekday/yearday/isdst, and the timezone offset in seconds (`none` when the
input carried no usable numeric or named zone). -/
structure DateTuple where
  year : Int
  month : Int
  day : Int
  hour : Int
  minute : Int
  second : Int
  wday : Int
  yday : Int
  isdst : Int
  tzoffset : Option Int
deriving DecidableEq

/-- `_parsedate_tz` step: remove a leading day name (token ending in a
comma or a known three-letter day), else trim the first token to the text
after its last comma. -/
def pdtDropDayname (data : List String) : List String :=
  match data with
  | [] => []
  | d0 :: rest =>
      if endsWithComma d0 ∨ dayNames.contains (lowerStr d0) then rest
      else
        match afterLastComma d0.data with
        | some suffix => String.mk suffix :: rest
        | none => d0 :: rest

/-- `_parsedate_tz` step: a three-token RFC-850 date has its dashed first
token split into three. -/
def pdtRfc850 (data : List String) : List String :=
  match data with
  | [d0, d1, d2] =>
      let stuff := (splitOnChar '-' d0.data).map String.mk
      if stuff.length = 3 then stuff ++ [d1, d2] else [d0, d1, d2]
  | other => other

/-- `_parsedate_tz` step: with four tokens, a `+` strictly inside the last
token splits it into time and zone; otherwise a dummy empty zone is
appended. -/
def pdtSplitPlus (data : List String) : List String :=
  match data with
  | [d0, d1, d2, s] =>
      match idxOfChar '+' s.data with
      | some i =>
          if 0 < i then
            [d0, d1, d2, String.mk (s.data.take i), String.mk (s.data.drop (i + 1))]
          else [d0, d1, d2, s, ""]
      | none => [d0, d1, d2, s, ""]
  | other => other

/-- Strip one trailing comma (Python `if x[-1] == ",": x = x[:-1]`; on an
empty token CPython raises `IndexError`, modelled as a parse failure —
either way the script run aborts there, and no claim reaches that case). -/
def stripTrailingComma (s : String) : Option String :=
  match s.data.getLast? with
  | none => none
  | some c => if c = ',' then some (String.mk s.data.dropLast) else some s

/-- `_parsedate_tz` step: identify the month token.  If the second token is
not a month name, the first and second are swapped (both lowered, as in the
source); failure of both lookups is a parse failure.  Returns the day token
and the month number before the `> 12` wrap. -/
def pdtMonth (dd mm : String) : Option (String × Nat) :=
  let mmL := lowerStr mm
  match idxIn mmL monthNames with
  | some i => some (dd, i + 1)
  | none =>
      let mm2 := lowerStr dd
      match idxIn mm2 monthNames with
      | some i => some (mmL, i + 1)
      | none => none

/-- `_parsedate_tz` final step: convert the five textual fields with
`int()`, resolve the zone (named table first, then `int` of the uppercased
token; an unusable zone leaves the offset `None`), and turn a non-zero
`±hhmm` offset into signed seconds (`if tzoffset:` skips both `None` and
`0`). -/
def pdtFinish (yy dd : String) (mm : Nat) (thS tmS tsS tz : String) : Option DateTuple :=
  match pyInt yy, pyInt dd, pyInt thS, pyInt tmS, pyInt tsS with
  | some y, some d, some th, some tmin, some ts =>
      let tzU := upperStr tz
      let tzoffset0 : Option Int :=
        match lookupTz timezoneTable tzU with
        | some v => some v
        | none => pyInt tzU
      let tzoffset : Option Int :=
        match tzoffset0 with
        | none => none
        | some t =>
            if t = 0 then some 0
            else
              let a := t.natAbs
              let secs : Int := (a / 100) * 3600 + (a % 100) * 60
              some (if t < 0 then -secs else secs)
      some ⟨y, mm, d, th, tmin, ts, 0, 1, -1, tzoffset⟩
  | _, _, _, _, _ => none

/-- `email.utils.parsedate_tz` as implemented in Python 2.7
(`email._parseaddr._parsedate_tz`): tokenize on whitespace, drop the day
name, normalize an RFC-850 dashed date and a glued `+` zone, require at
least five tokens, resolve the month (with the day/month swap), apply the
year/time swap when the year token contains a colon, the year/zone swap
when the year token does not start with a digit, split the time on colons,
and read the numeric fields; `none` models the `return None` failure. -/
def parsedate_tz (s : String) : Option DateTuple :=
  match pdtSplitPlus (pdtRfc850 (pdtDropDayname (pySplitWS s))) with
  | dd0 :: mm0 :: yy0 :: tm0 :: tz0 :: _ =>
      match pdtMonth dd0 mm0 with
      | none => none
      | some (dd1, mIdx) =>
          let mm : Nat := if mIdx > 12 then mIdx - 12 else mIdx
          match stripTrailingComma dd1 with
          | none => none
          | some dd2 =>
              let swapYT : Bool :=
                match idxOfChar ':' yy0.data with
                | some i => 0 < i
                | none => false
              let yyA := if swapYT then tm0 else yy0
              let tmA := if swapYT then yy0 else tm0
              match stripTrailingComma yyA with
              | none => none
              | some yyB =>
                  match yyB.data.head? with
                  | none => none
                  | some c0 =>
                      let swapYZ := ¬ c0.isDigit
                      let yyC := if swapYZ then tz0 else yyB
                      let tzA := if swapYZ then yyB else tz0
                      match stripTrailingComma tmA with
                      | none => none
                      | some tmB =>
                          match (splitOnChar ':' tmB.data).map String.mk with
                          | [thS, tmS] => pdtFinish yyC dd2 mm thS tmS "0" tzA
                          | [thS, tmS, tsS] => pdtFinish yyC dd2 mm thS tmS tsS tzA
                          | _ => none
  | _ => none

/-- Gregorian leap-year test, as in `datetime`. -/
def isLeapYear (y : Int) : Bool := y % 4 == 0 && (y % 100 != 0 || y % 400 == 0)

/-- Days in a month, as validated by the `datetime` constructor. -/
def daysInMonth (y m : Int) : Int :=
  if m = 2 then (if isLeapYear y then 29 else 28)
  else if m = 4 ∨ m = 6 ∨ m = 9 ∨ m = 11 then 30
  else 31

/-- `datetime.datetime(year, month, day, hour, minute, second, microsecond)`:
range validation with `ValueError` outside the documented bounds. -/
def datetimeCtor (y mo d h mi s us : Int) :
    Except PyErr (Int × Int × Int × Int × Int × Int × Int) :=
  if 1 ≤ y ∧ y ≤ 9999 ∧ 1 ≤ mo ∧ mo ≤ 12 ∧ 1 ≤ d ∧ d ≤ daysInMonth y mo ∧
     0 ≤ h ∧ h ≤ 23 ∧ 0 ≤ mi ∧ mi ≤ 59 ∧ 0 ≤ s ∧ s ≤ 59 ∧ 0 ≤ us ∧ us ≤ 999999 then
    .ok (y, mo, d, h, mi, s, us)
  else .error (.valueError "datetime argument out of range")

/-- Lines 156-162: `time_str = tweet["created_at"]` is a plain subscript
(`KeyError` when the key is absent, `TypeError` when the record is not a
dict); `time_tpl = email.utils.parsedate_tz(time_str)` raises
`AttributeError` when the value is not a string (`parsedate_tz` starts with
`data.split()`); `dt.datetime(*[time_tpl[i] for i in range(7)])` raises
`TypeError` by subscripting `None` when parsing failed, and otherwise uses
the first seven components — year, month, day, hour, minute, second, and
the constant weekday filler 0, which lands in the `microsecond` argument.
The timezone offset, component 9, is never read. -/
def timeOf (tweet : Json) : Except PyErr (Int × Int × Int × Int × Int × Int × Int) :=
  match getItemStr tweet "created_at" with
  | .error e => .error e
  | .ok (.str s) =>
      match parsedate_tz s with
      | none => .error (.typeError "NoneType object is not subscriptable")
      | some t => datetimeCtor t.year t.month t.day t.hour t.minute t.second t.wday
  | .ok _ => .error (.attributeError "split")

/-- Lines 120-165, the loop body for one input record: write one cell per
configured field, then unconditionally extract and parse `created_at`
(lines 156-162 are not guarded by `args.no_time_columns`); the parsed
datetime is only printed, and the planned six time cells are an unfinished
placeholder at line 163, so no further cells are written.  The first
uncaught exception aborts the run. -/
def processRecord (flds : List String) (tweet : Json) : Except PyErr (List String) :=
  match writeCells tweet flds with
  | .error e => .error e
  | .ok cells =>
      match timeOf tweet with
      | .error e => .error e
      | .ok _ => .ok cells

/-- `field.replace(",", "-")` used for header labels (line 114). -/
def replaceCommaDash (s : String) : String :=
  String.mk (s.data.map (fun c => if c = ',' then '-' else c))

/-- Lines 112-118: the header labels — one per configured field, plus the
six time labels unless `--no_time_columns` was given. -/
def headerCells (flds : List String) (noTimeColumns : Bool) : List String :=
  flds.map replaceCommaDash ++
    (if noTimeColumns then [] else ["Year", "Month", "Day", "Hour", "Minute", "Seconds"])

/-- The record loop over the parsed lines of the input: the completed rows
in order, and the uncaught exception that aborted the run, if any. -/
def runRecords (flds : List String) : List Json → List (List String) × Option PyErr
  | [] => ([], none)
  | t :: rest =>
      match processRecord flds t with
      | .ok row =>
          let (rows, e) := runRecords flds rest
          (row :: rows, e)
      | .error e => ([], some e)

/-- A whole run: the header labels (the only part the `--no_time_columns`
flag affects), the data rows, and the aborting exception, if any. -/
def run (flds : List String) (noTimeColumns : Bool) (tweets : List Json) :
    List String × List (List String) × Option PyErr :=
  let (rows, e) := runRecords flds tweets
  (headerCells flds noTimeColumns, rows, e)

/-- A record carrying every default field, with the timestamp format real
Twitter records use. -/
def sampleTweet : Json :=
  Json.obj [("id", Json.num 1),
            ("user", Json.obj [("id", Json.num 2), ("screen_name", Json.str "bob")]),
            ("geo", Json.obj [("coordinates", Json.arr [Json.num 51, Json.num 0])]),
            ("place", Json.obj [("full_name", Json.str "London")]),
            ("created_at", Json.str "Wed Aug 27 13:08:45 +0000 2008"),
            ("text", Json.str "hello")]

/-! ### Helper lemmas -/

theorem data_append (a b : String) : (a ++ b).data = a.data ++ b.data := rfl

theorem replaceNewline_data (s : String) :
    (replaceNewline s).data = s.data.map (fun c => if c = '\n' then ' ' else c) := rfl

theorem replaceNewline_length (s : String) :
    (replaceNewline s).data.length = s.data.length := by
  simp [replaceNewline_data]

/-- Replacing newlines by spaces does not change the number of occurrences
of any character other than the two involved. -/
theorem count_replaceNewline_of_ne (t : Char) (h1 : t ≠ '\n') (h2 : t ≠ ' ')
    (s : String) : (replaceNewline s).data.count t = s.data.count t := by
  rw [replaceNewline_data]
  induction s.data with
  | nil => rfl
  | cons c cs ih =>
      by_cases hc : c = '\n'
      · subst hc
        simp only [List.map_cons, if_pos rfl, List.count_cons, ih]
        simp [h1.symm, h2.symm]
      · simp only [List.map_cons, if_neg hc, List.count_cons, ih]

theorem fix_str_data (s : String) :
    (fix (Json.str s)).data =
      '"' :: s.data.map (fun c => if c = '\n' then ' ' else c) ++ ['"'] := rfl

/-! ### Claim theorems -/

/-- C8: `resolve({"a":{"b":[10,20]}}, ["a","b",1])` returns `Found(20)`:
the mapping segments are resolved by key lookup, and the numeric final
segment by sequence index lookup (through the `TypeError` fallback to
`value[int(key)]`). -/
theorem C8_resolve_map_then_index :
    resolve (Json.obj [("a", Json.obj [("b", Json.arr [Json.num 10, Json.num 20])])])
      (splitComma "a,b,1") = .ok (.value (Json.num 20)) := by rfl

/-- C2 counterexample: on the record `{"b": 1}` — a non-null mapping
without the key `"a"` — the path `["a"]` does not yield the absent marker:
the lookup raises an uncaught `KeyError`, refuting the claim that the
resolution returns `Absent` and never raises there. -/
theorem C2_counterexample :
    resolve (Json.obj [("b", Json.num 1)]) (splitComma "a") =
      .error (.keyError "a") := by rfl

/-- C2 (amended): a first path segment absent from a non-null mapping
record raises an uncaught `KeyError` (aborting the run); the no-raise
empty-placeholder outcome arises when the walked value is `None` while
path segments remain. -/
theorem C2_amended_missing_key_raises (entries : List (String × Json)) (key : String)
    (rest : List String) (h : lookupKey entries key = none) :
    resolve (Json.obj entries) (key :: rest) = .error (.keyError key) ∧
    resolve Json.null (key :: rest) = .ok .nodata := by
  constructor
  · simp [resolve, getItemWithFallback, getItemStr, h]
  · rfl

/-- Witness for C2 (amended) at the record `{"b": 1}` and path `["a"]`. -/
theorem C2_witness :
    lookupKey [("b", Json.num 1)] "a" = none ∧
    (resolve (Json.obj [("b", Json.num 1)]) ["a"] = .error (.keyError "a") ∧
     resolve Json.null ["a"] = .ok .nodata) :=
  ⟨rfl, C2_amended_missing_key_raises [("b", Json.num 1)] "a" [] rfl⟩

/-- An error on one field cell aborts the whole record loop, whatever
fields come after it. -/
theorem writeCells_append_error (tweet : Json) (pre post : List String) (f : String)
    (cells : List String) (e : PyErr) (h1 : writeCells tweet pre = .ok cells)
    (h2 : writeField tweet f = .error e) :
    writeCells tweet (pre ++ f :: post) = .error e := by
  induction pre generalizing cells with
  | nil => simp [writeCells, h2]
  | cons p ps ih =>
      revert h1
      simp only [writeCells, List.cons_append]
      cases hp : writeField tweet p with
      | error e2 => intro h1; cases h1
      | ok c =>
          cases hps : writeCells tweet ps with
          | error e2 => intro h1; cases h1
          | ok cs =>
              intro h1
              have hr := ih cs hps
              rw [← List.append_eq] at hr
              rw [hr]

/-- C4 counterexample: on the record `{"a": 5, "x": 7}` with the fields
`["a,b", "x"]`, the type mismatch at segment `"b"` (the value `5` is not a
container) is not confined to that field: the fallback `int("b")` raises an
uncaught `ValueError`, the run aborts with no data row at all, and the
other field `"x"` is never produced — refuting the claim that the cell
becomes an empty placeholder while the rest of the record is unaffected. -/
theorem C4_counterexample :
    run ["a,b", "x"] true [Json.obj [("a", Json.num 5), ("x", Json.num 7)]] =
      (["a-b", "x"], [], some (.valueError "b")) := by rfl

/-- C4 (amended): a type mismatch never yields a placeholder cell and is
not confined to the field.  A cell error aborts the whole record loop (no
later field is produced); a `TypeError` from subscripting triggers exactly
one retry as `value[int(key)]`, whose `ValueError` propagates uncaught when
the segment is not numeric, and which continues the walk when the segment
is a valid index into a sequence. -/
theorem C4_amended_type_mismatch_aborts :
    (∀ (tweet : Json) (pre post : List String) (f : String) (cells : List String)
       (e : PyErr), writeCells tweet pre = .ok cells → writeField tweet f = .error e →
        writeCells tweet (pre ++ f :: post) = .error e) ∧
    (∀ (v : Json) (key m : String), getItemStr v key = .error (.typeError m) →
        pyInt key = none → getItemWithFallback v key = .error (.valueError key)) ∧
    (∀ (xs : List Json) (key : String) (n : Nat), pyInt key = some (n : Int) →
        n < xs.length →
        getItemWithFallback (Json.arr xs) key = .ok (xs.getD n Json.null)) := by
  refine ⟨writeCells_append_error, ?_, ?_⟩
  · intro v key m hty hint
    simp [getItemWithFallback, hty, hint]
  · intro xs key n hint hlt
    cases v : getItemStr (Json.arr xs) key with
    | ok x => simp [getItemStr] at v
    | error e =>
        simp only [getItemStr] at v
        cases v
        simp only [getItemWithFallback, getItemStr, hint, getItemInt]
        have h0 : ¬ ((n : Int) < 0) := by omega
        have h1 : (0 : Int) ≤ (n : Int) ∧ (n : Int) < (xs.length : Int) := by
          constructor <;> omega
        simp [h0, h1]

/-- Witness for C4 (amended): the abort at the record `{"a": 5, "x": 7}`
with prior field `"x"`, the `ValueError` from `int("b")` on the value `5`,
and the successful integer retry `["a","b"][1]`. -/
theorem C4_witness :
    (writeCells (Json.obj [("a", Json.num 5), ("x", Json.num 7)]) ["x"] = .ok ["7"] ∧
     writeField (Json.obj [("a", Json.num 5), ("x", Json.num 7)]) "a,b" =
       .error (.valueError "b") ∧
     writeCells (Json.obj [("a", Json.num 5), ("x", Json.num 7)]) (["x"] ++ ["a,b"]) =
       .error (.valueError "b")) ∧
    (getItemStr (Json.num 5) "b" = .error (.typeError "int object is not subscriptable") ∧
     pyInt "b" = none ∧
     getItemWithFallback (Json.num 5) "b" = .error (.valueError "b")) ∧
    (pyInt "1" = some 1 ∧
     getItemWithFallback (Json.arr [Json.str "a", Json.str "b"]) "1" =
       .ok ((([Json.str "a", Json.str "b"] : List Json)).getD 1 Json.null)) := by
  refine ⟨⟨rfl, rfl, ?_⟩, ⟨rfl, rfl, ?_⟩, ⟨rfl, ?_⟩⟩
  · exact C4_amended_type_mismatch_aborts.1 _ ["x"] [] "a,b" ["7"]
      (.valueError "b") rfl rfl
  · exact C4_amended_type_mismatch_aborts.2.1 (Json.num 5) "b"
      "int object is not subscriptable" rfl rfl
  · exact C4_amended_type_mismatch_aborts.2.2 [Json.str "a", Json.str "b"] "1" 1 rfl
      (by decide)

/-- C5 counterexample: on the text `a"b`, `fix` produces `"a"b"` with the
internal double quote left as is, not the CSV-doubled `"a""b"` the claim
requires. -/
theorem C5_counterexample :
    fix (Json.str "a\"b") = "\"a\"b\"" ∧ ("\"a\"b\"" : String) ≠ "\"a\"\"b\"" :=
  ⟨rfl, by decide⟩

/-- C5 (amended): `fix` wraps string text in double quotes (the formatted
cell starts and ends with `"`), but internal double quotes are not escaped:
the formatted cell contains exactly two more double-quote characters than
the original text, not one per internal quote in addition. -/
theorem C5_amended_no_quote_escaping (s : String) :
    (fix (Json.str s)).data.head? = some '"' ∧
    (fix (Json.str s)).data.getLast? = some '"' ∧
    (fix (Json.str s)).data.count '"' = s.data.count '"' + 2 := by
  refine ⟨rfl, ?_, ?_⟩
  · rw [fix_str_data]
    rw [List.getLast?_concat]
  · rw [fix_str_data]
    rw [List.cons_append, List.count_cons, List.count_append]
    have h := count_replaceNewline_of_ne '"' (by decide) (by decide) s
    rw [replaceNewline_data] at h
    rw [h]
    simp [List.count_cons]

/-- C6 counterexample: the cell for a missing field (`Absent`) is the
one-space placeholder `" "`, but the cell for a found `null` is the text
`None` (the `AttributeError` branch of `fix` applies `str` to `None`) —
the two differ, refuting `format(Absent) = format(Found(null))`; and
formatting the placeholder again wraps it in quotes, refuting idempotence. -/
theorem C6_counterexample :
    formatCell .nodata = " " ∧
    formatCell (.value Json.null) = "None" ∧
    (" " : String) ≠ "None" ∧
    resolve (Json.obj [("a", Json.null)]) (splitComma "a") = .ok (.value Json.null) ∧
    fix (Json.str " ") ≠ " " :=
  ⟨rfl, rfl, by decide, rfl, by decide⟩

/-- C6 (amended): `format(Absent)` is the one-space placeholder cell, while
`format(Found(null))` is the unquoted text `None` (via `str(None)`); the
two are distinct, and re-formatting the placeholder text wraps it in double
quotes, so formatting is not idempotent. -/
theorem C6_amended_null_formats_as_None :
    formatCell .nodata = " " ∧
    formatCell (.value Json.null) = "None" ∧
    fix (Json.str " ") = "\" \"" :=
  ⟨rfl, rfl, rfl⟩

/-- C7 counterexample: a carriage-return character survives formatting
unchanged — `fix` only replaces `"\n"` — so a formatted cell can contain a
raw line-break character, refuting the claim for `"\r"`. -/
theorem C7_counterexample :
    fix (Json.str "a\rb") = "\"a\rb\"" ∧ '\r' ∈ (fix (Json.str "a\rb")).data :=
  ⟨rfl, by decide⟩

/-- C7 (amended): every embedded newline (`"\n"`) is replaced by a single
space — a formatted string cell never contains a raw `"\n"` — but
carriage-return characters are not replaced: their count is preserved
exactly. -/
theorem C7_amended_only_newline_replaced :
    (∀ s : String, '\n' ∉ (fix (Json.str s)).data) ∧
    (∀ s : String, (fix (Json.str s)).data.count '\r' = s.data.count '\r') := by
  constructor
  · intro s hmem
    rw [fix_str_data] at hmem
    rcases List.mem_cons.mp hmem with h | h
    · cases h
    · rcases List.mem_append.mp h with h | h
      · rcases List.mem_map.mp h with ⟨c, _, hc⟩
        by_cases hcn : c = '\n'
        · rw [if_pos hcn] at hc; cases hc
        · rw [if_neg hcn] at hc; exact hcn hc
      · simp at h
  · intro s
    rw [fix_str_data]
    rw [List.cons_append, List.count_cons, List.count_append]
    have h := count_replaceNewline_of_ne '\r' (by decide) (by decide) s
    rw [replaceNewline_data] at h
    rw [h]
    simp [List.count_cons]

/-- C9: for every value that is not a string (numbers, booleans, `null`,
sequences, mappings — all lacking an `encode` method), `fix` returns
`str(value)` unchanged: the `AttributeError` branch applies, so no
surrounding double quotes and no newline sanitization are added (the
result is strictly shorter than the quoted form would be). -/
theorem C9_nonstring_str_fallback (v : Json) (h : ∀ s, v ≠ Json.str s) :
    fix v = pyStr v ∧ fix v ≠ "\"" ++ replaceNewline (pyStr v) ++ "\"" := by
  have hfix : fix v = pyStr v := by
    cases v with
    | str s => exact absurd rfl (h s)
    | null => rfl
    | bool b => rfl
    | num n => rfl
    | arr xs => rfl
    | obj es => rfl
  refine ⟨hfix, ?_⟩
  intro heq
  rw [hfix] at heq
  have hlen := congrArg (fun t => t.data.length) heq
  simp only [data_append, List.length_append] at hlen
  rw [replaceNewline_length] at hlen
  simp at hlen
  omega

/-- Witness for C9 at the number 5: `fix` yields the bare text `5`. -/
theorem C9_witness :
    (∀ s, Json.num 5 ≠ Json.str s) ∧
    (fix (Json.num 5) = pyStr (Json.num 5) ∧
     fix (Json.num 5) ≠ "\"" ++ replaceNewline (pyStr (Json.num 5)) ++ "\"") :=
  ⟨fun _ h => Json.noConfusion h,
   C9_nonstring_str_fallback (Json.num 5) (fun _ h => Json.noConfusion h)⟩

/-- C10: `created_at` is extracted and parsed for every record,
independently of the `--no_time_columns` flag (which only affects the
header): a record without the key aborts the run with an uncaught
`KeyError` — producing no data row at all, rather than empty time cells —
and a record whose `created_at` text `parsedate_tz` cannot parse raises an
uncaught `TypeError` from subscripting `None`. -/
theorem C10_created_at_unconditional :
    (∀ entries : List (String × Json), lookupKey entries "created_at" = none →
        timeOf (Json.obj entries) = .error (.keyError "created_at")) ∧
    (∀ (ntc : Bool) (flds : List String) (entries : List (String × Json))
       (cells : List String),
        lookupKey entries "created_at" = none →
        writeCells (Json.obj entries) flds = .ok cells →
        run flds ntc [Json.obj entries] =
          (headerCells flds ntc, [], some (.keyError "created_at"))) ∧
    (∀ (entries : List (String × Json)) (s : String),
        lookupKey entries "created_at" = some (Json.str s) →
        parsedate_tz s = none →
        timeOf (Json.obj entries) =
          .error (.typeError "NoneType object is not subscriptable")) := by
  refine ⟨?_, ?_, ?_⟩
  · intro entries h
    simp [timeOf, getItemStr, h]
  · intro ntc flds entries cells h hcells
    simp [run, runRecords, processRecord, hcells, timeOf, getItemStr, h]
  · intro entries s h hparse
    simp [timeOf, getItemStr, h, hparse]

/-- Witness for C10: the record `{"id": 7}` lacks `created_at` and aborts
with `KeyError` under either flag value; the record
`{"created_at": "garbage"}` aborts with `TypeError`. -/
theorem C10_witness :
    (lookupKey [("id", Json.num 7)] "created_at" = none ∧
     timeOf (Json.obj [("id", Json.num 7)]) = .error (.keyError "created_at")) ∧
    (writeCells (Json.obj [("id", Json.num 7)]) ["id"] = .ok ["7"] ∧
     run ["id"] true [Json.obj [("id", Json.num 7)]] =
       (headerCells ["id"] true, [], some (.keyError "created_at")) ∧
     run ["id"] false [Json.obj [("id", Json.num 7)]] =
       (headerCells ["id"] false, [], some (.keyError "created_at"))) ∧
    (parsedate_tz "garbage" = none ∧
     timeOf (Json.obj [("created_at", Json.str "garbage")]) =
       .error (.typeError "NoneType object is not subscriptable")) :=
  ⟨⟨rfl, C10_created_at_unconditional.1 [("id", Json.num 7)] rfl⟩,
   ⟨rfl,
    C10_created_at_unconditional.2.1 true ["id"] [("id", Json.num 7)] ["7"] rfl rfl,
    C10_created_at_unconditional.2.1 false ["id"] [("id", Json.num 7)] ["7"] rfl rfl⟩,
   ⟨rfl,
    C10_created_at_unconditional.2.2 [("created_at", Json.str "garbage")] "garbage"
      rfl rfl⟩⟩

/-- C3: the code does not use the embedded UTC offset.  On
`"Wed, 02 Oct 2002 08:00:00 -0700"`, `parsedate_tz` does return the offset
(component 9, -25200 seconds), but the script builds the datetime from
components 0-6 only, so the resulting hour is the literal 8 — under a local
zone of UTC+0 the claim requires an hour distinct from 8 (true local time
would be 15:00).  No local-timezone information enters the computation at
all, contradicting the script's own time-zone note. -/
theorem C3_offset_parsed_but_ignored :
    parsedate_tz "Wed, 02 Oct 2002 08:00:00 -0700" =
      some ⟨2002, 10, 2, 8, 0, 0, 0, 1, -1, some (-25200)⟩ ∧
    timeOf (Json.obj [("created_at", Json.str "Wed, 02 Oct 2002 08:00:00 -0700")]) =
      .ok (2002, 10, 2, 8, 0, 0, 0) :=
  ⟨rfl, rfl⟩

/-- C1: the six time cells are never written.  On a record carrying every
default field, the run succeeds, the header (with time columns enabled) has
`len(fields) + 6 = 14` labels, but the data row has only `len(fields) = 8`
cells: the row-writing loop emits one cell per requested field and the
planned time cells are an unfinished placeholder (line 163), so the claimed
row/header cell-count equality fails whenever time columns are enabled. -/
theorem C1_time_cells_never_written :
    run fields false [sampleTweet] =
      (headerCells fields false,
       [["1", "2", "\"bob\"", "51", "0", "\"London\"",
         "\"Wed Aug 27 13:08:45 +0000 2008\"", "\"hello\""]], none) ∧
    (headerCells fields false).length = fields.length + 6 ∧
    (["1", "2", "\"bob\"", "51", "0", "\"London\"",
      "\"Wed Aug 27 13:08:45 +0000 2008\"", "\"hello\""] : List String).length =
      fields.length ∧
    fields.length = 8 :=
  ⟨rfl, rfl, rfl, rfl⟩

end Json2Csv
